import Mathlib

/-!
Shallow embedding of the client-side mood-data pipeline of the MindWell
repository (the `MoodTracker` implementation file): configuration constants,
the mood label table, input validation, the per-entry-expiry cache, the
retrying HTTP client, the 7-day history processor, and the `logMood` /
`fetchMoodHistory` orchestration, modelled as pure state-passing functions
that also emit a trace of observable effects.
-/

namespace MindWell

/-- Milliseconds in one day; calendar days are modelled as millisecond
timestamps truncated to a day boundary. -/
def dayMs : Int := 86400000

/-- Truncation of a millisecond timestamp to midnight of its day
(the JS `date.setHours(0, 0, 0, 0)`). -/
def truncDay (t : Int) : Int := dayMs * (t.fdiv dayMs)

/-- The `MOOD_CONFIG` constant object. -/
structure MoodConfig where
  API_ENDPOINT : String
  HISTORY_ENDPOINT : String
  RETRY_ATTEMPTS : Nat
  RETRY_DELAY : Nat
  CACHE_DURATION : Int

def MOOD_CONFIG : MoodConfig :=
  { API_ENDPOINT := "/api/mood"
  , HISTORY_ENDPOINT := "/api/mood/history"
  , RETRY_ATTEMPTS := 3
  , RETRY_DELAY := 1000
  , CACHE_DURATION := 5 * 60 * 1000 }

/-- The attribute record stored for each mood label in `MOOD_MAPPINGS`. -/
structure MoodAttrs where
  value : Int
  emoji : String
  color : String
deriving DecidableEq

/-- The `MOOD_MAPPINGS` table: label to attributes, absent for unknown labels. -/
def MOOD_MAPPINGS : String → Option MoodAttrs
  | "Happy" => some ⟨5, "😊", "#10B981"⟩
  | "Good" => some ⟨4, "🙂", "#059669"⟩
  | "Okay" => some ⟨3, "😐", "#F59E0B"⟩
  | "Worried" => some ⟨2, "😟", "#EF4444"⟩
  | "Sad" => some ⟨1, "😢", "#DC2626"⟩
  | _ => none

/-- `MoodTracker.validateMoodInput`. The `value` argument is the result of
`parseInt(value)`: `none` models `NaN`, `some v` a successful integer parse.
The checks run in source order: non-empty string, parse in 1..5, label known. -/
def validateMoodInput (mood : String) (value : Option Int) : Bool :=
  if mood = "" then false
  else
    match value with
    | none => false
    | some v =>
      if v < 1 ∨ 5 < v then false
      else (MOOD_MAPPINGS mood).isSome

/-- One raw history record `{date, value}` as served by the history endpoint;
`date` is a millisecond timestamp. -/
structure MoodRecord where
  date : Int
  value : Int
deriving DecidableEq

/-- The value returned by `processHistoryData`:
`{ labels, dataPoints, rawHistory }`. -/
structure DaySeries where
  labels : List String
  dataPoints : List (Option Int)
  rawHistory : List MoodRecord
deriving DecidableEq

/-- The body of the `for (let i = 6; i >= 0; i--)` loop of
`processHistoryData`: for each day offset `i`, push the formatted label for
`today - i` days and the value of the first record whose date truncates to
that day (or `none` when no record matches). -/
def historySlots (fmt : Int → String) (today : Int) (history : List MoodRecord) :
    List Int → List String × List (Option Int)
  | [] => ([], [])
  | i :: rest =>
    let d : Int := today - i * dayMs
    let entry := history.find? (fun h => truncDay h.date == d)
    let (ls, ps) := historySlots fmt today history rest
    (fmt d :: ls, entry.map MoodRecord.value :: ps)

/-- `MoodTracker.processHistoryData`. `now` is the current instant (the JS
`new Date()`), truncated to local midnight to obtain `today`; `fmt` is the
locale date formatter (`toLocaleDateString`), an external collaborator. -/
def processHistoryData (fmt : Int → String) (now : Int) (history : List MoodRecord) :
    DaySeries :=
  let today := truncDay now
  let (ls, ps) := historySlots fmt today history [6, 5, 4, 3, 2, 1, 0]
  ⟨ls, ps, history⟩

/-- A cache entry `{ data, expiry }`. -/
structure CacheItem (A : Type) where
  data : A
  expiry : Int
deriving DecidableEq

/-- `MoodCache`: the backing `Map`, modelled as an association list with
unique keys maintained by `set`/`delete`. -/
structure MoodCache (A : Type) where
  entries : List (String × CacheItem A)
deriving DecidableEq

namespace MoodCache

/-- `Map.get`: the item stored under `k`, if any. -/
def lookup (c : MoodCache A) (k : String) : Option (CacheItem A) :=
  (c.entries.find? (fun p => p.1 == k)).map (·.2)

/-- `Map.delete k`. -/
def delete (c : MoodCache A) (k : String) : MoodCache A :=
  ⟨c.entries.filter (fun p => p.1 != k)⟩

/-- `MoodCache.set`: store `d` under `k` with expiry `now + ttl`,
overwriting any previous entry for `k`. -/
def set (c : MoodCache A) (now : Int) (k : String) (d : A) (ttl : Int) : MoodCache A :=
  ⟨(k, ⟨d, now + ttl⟩) :: (c.entries.filter (fun p => p.1 != k))⟩

/-- `MoodCache.get` at current time `now`: absent if no entry; if the entry
is expired (`now > expiry`) delete it and return absence; otherwise return
the payload and leave the cache untouched. Returns the payload (if any)
together with the cache after the call. -/
def get (c : MoodCache A) (now : Int) (k : String) : Option A × MoodCache A :=
  match c.lookup k with
  | none => (none, c)
  | some item =>
    if item.expiry < now then (none, c.delete k)
    else (some item.data, c)

/-- `MoodCache.clear`. -/
def clear : MoodCache A := ⟨[]⟩

end MoodCache

/-- `ApiClient.retryRequest`, one loop iteration per remaining attempt.
`req i` is the outcome of the `i`-th call to `request` (0-based). The result
is `(outcome, number of calls made, list of delays slept)`; the outcome is
`none` only when the loop runs zero iterations (`attempts = 0`, where the JS
function returns `undefined`). A failure of the last attempt is rethrown;
any earlier failure sleeps `RETRY_DELAY * (i + 1)` and retries. -/
def retryAux (req : Nat → Except E A) (baseDelay : Nat) :
    Nat → Nat → Option (Except E A) × Nat × List Nat
  | _, 0 => (none, 0, [])
  | i, 1 =>
    match req i with
    | .ok a => (some (.ok a), 1, [])
    | .error e => (some (.error e), 1, [])
  | i, (r + 2) =>
    match req i with
    | .ok a => (some (.ok a), 1, [])
    | .error _ =>
      let rest := retryAux req baseDelay (i + 1) (r + 1)
      (rest.1, rest.2.1 + 1, baseDelay * (i + 1) :: rest.2.2)

/-- `ApiClient.retryRequest(endpoint, options, attempts)` abstracted over the
attempt outcomes. -/
def retryRequest (req : Nat → Except E A) (attempts : Nat) :
    Option (Except E A) × Nat × List Nat :=
  retryAux req MOOD_CONFIG.RETRY_DELAY 0 attempts

/-- JS `String.prototype.includes`: `sub` occurs contiguously in `s`. -/
def strIncludes (s sub : String) : Bool := decide (sub.data <:+: s.data)

/-- The message built by `MoodTracker.handleMoodLogError` from the error
message `msg`, by substring matching against the known markers. -/
def handleMoodLogErrorMessage (msg : String) : String :=
  let base := "Failed to log mood. "
  if strIncludes msg "network" || strIncludes msg "fetch" then
    base ++ "Please check your internet connection."
  else if strIncludes msg "401" || strIncludes msg "unauthorized" then
    base ++ "Please log in again."
  else if strIncludes msg "429" then
    base ++ "Too many requests. Please wait a moment."
  else
    base ++ "Please try again later."

/-- The success message of `logMood`:
`Mood logged successfully: ${mood} ${MOOD_MAPPINGS[mood]?.emoji || ''}`. -/
def successMessage (mood : String) : String :=
  "Mood logged successfully: " ++ mood ++ " " ++
    (match MOOD_MAPPINGS mood with
     | some a => a.emoji
     | none => "")

/-- Observable effects of the tracker: loading-state toggles, HTTP requests
(by endpoint), the optimistic UI update, cache clearing, chart rendering and
notifications (message, type). -/
inductive Ev where
  | loading (b : Bool)
  | http (endpoint : String)
  | updateUI (mood : String) (value : Option Int)
  | cacheClear
  | chart (labels : List String) (dataPoints : List (Option Int))
  | notify (message : String) (kind : String)
deriving DecidableEq

/-- The tracker's environment during one operation: the outcome of the POST
submission (already through `retryRequest`), the outcome of the history GET,
the current instant and the locale date formatter. `α` is the server's
response type for the POST. -/
structure Env (α : Type) where
  postResult : Except String α
  historyResult : Except String (List MoodRecord)
  now : Int
  fmt : Int → String

/-- The tracker's mutable state: the `isLoading` flag and the cache
(holding the processed `DaySeries` under key `"mood_history"`). -/
structure TrackerState where
  isLoading : Bool
  cache : MoodCache DaySeries

/-- The error-path effects of `fetchMoodHistory`'s catch block. -/
def historyFailMessage : String :=
  "Unable to load mood history. Please try again later."

/-- `MoodTracker.fetchMoodHistory(forceRefresh)`: when not forced and the
cache holds a fresh series, render and return it; otherwise fetch the raw
history, process it, cache and render the result; on fetch failure notify,
render an empty chart and rethrow. Returns (outcome, state after, trace). -/
def fetchMoodHistory (env : Env α) (st : TrackerState) (forceRefresh : Bool) :
    Except String DaySeries × TrackerState × List Ev :=
  let cached :=
    if forceRefresh then (none, st.cache)
    else st.cache.get env.now "mood_history"
  match cached with
  | (some d, c1) =>
    (.ok d, { st with cache := c1 }, [.chart d.labels d.dataPoints])
  | (none, c1) =>
    match env.historyResult with
    | .error e =>
      (.error e, { st with cache := c1 },
       [.http MOOD_CONFIG.HISTORY_ENDPOINT,
        .notify historyFailMessage "error",
        .chart [] []])
    | .ok hist =>
      let cd := processHistoryData env.fmt env.now hist
      (.ok cd,
       { st with cache := c1.set env.now "mood_history" cd MOOD_CONFIG.CACHE_DURATION },
       [.http MOOD_CONFIG.HISTORY_ENDPOINT, .chart cd.labels cd.dataPoints])

def invalidInputMessage : String := "Invalid mood data provided"

def guardMessage : String := "Please wait for the previous mood entry to complete"

/-- `MoodTracker.logMood(mood, value)`. Validation and the in-flight guard
throw before the try block (no effects); then the POST is submitted through
the retrying client; on success the UI is updated, the cache cleared, the
history refetched and a success notification shown; any error raised inside
the try block is passed to `handleMoodLogError` (notification) and rethrown;
the finally block resets the loading state. -/
def logMood (env : Env α) (st : TrackerState) (mood : String) (value : Option Int) :
    Except String α × TrackerState × List Ev :=
  if !(validateMoodInput mood value) then (.error invalidInputMessage, st, [])
  else if st.isLoading then (.error guardMessage, st, [])
  else
    match env.postResult with
    | .error e =>
      (.error e, { st with isLoading := false },
       [.loading true, .http MOOD_CONFIG.API_ENDPOINT,
        .notify (handleMoodLogErrorMessage e) "error", .loading false])
    | .ok r =>
      let st1 : TrackerState := { isLoading := true, cache := MoodCache.clear }
      let (fh, st2, tr) := fetchMoodHistory env st1 false
      match fh with
      | .error e =>
        (.error e, { st2 with isLoading := false },
         [.loading true, .http MOOD_CONFIG.API_ENDPOINT,
          .updateUI mood value, .cacheClear] ++ tr ++
         [.notify (handleMoodLogErrorMessage e) "error", .loading false])
      | .ok _ =>
        (.ok r, { st2 with isLoading := false },
         [.loading true, .http MOOD_CONFIG.API_ENDPOINT,
          .updateUI mood value, .cacheClear] ++ tr ++
         [.notify (successMessage mood) "success", .loading false])

/-! ## Concrete fixtures used by witnesses and counterexamples -/

/-- A concrete date formatter for concrete evaluations. -/
def fmtW : Int → String := fun t => toString t

/-- A concrete raw history: one record. -/
def histW : List MoodRecord := [⟨999999000, 4⟩]

/-- A concrete processed series for cache fixtures. -/
def seriesW : DaySeries := ⟨["Mon"], [some 3], []⟩

/-- An environment whose POST and history GET both succeed. -/
def envOkW : Env Unit := ⟨.ok (), .ok histW, 1000000, fmtW⟩

/-- An environment whose POST fails with a 429 error message. -/
def envErrW : Env Unit := ⟨.error "429", .ok [], 1000000, fmtW⟩

/-- An idle tracker with an empty cache. -/
def stIdle : TrackerState := ⟨false, MoodCache.clear⟩

/-- A tracker with a submission in flight. -/
def stBusy : TrackerState := ⟨true, MoodCache.clear⟩

/-- An idle tracker holding a cached series expiring at 2000000. -/
def stCached : TrackerState := ⟨false, ⟨[("mood_history", ⟨seriesW, 2000000⟩)]⟩⟩

/-- A concrete cache holding 42 under "k", expiring at 100. -/
def cW : MoodCache Nat := ⟨[("k", ⟨42, 100⟩)]⟩

/-- Attempt outcomes that fail twice and then succeed with 42. -/
def c2req : Nat → Except String Nat :=
  fun i => if i < 2 then .error ("fail " ++ toString i) else .ok 42

/-! ## General lemmas about the cache -/

/-- After `Map.delete k`, `k` is no longer present. -/
theorem MoodCache.lookup_delete {A : Type} (c : MoodCache A) (k : String) :
    (c.delete k).lookup k = none := by
  unfold MoodCache.delete MoodCache.lookup
  have h : (c.entries.filter (fun p => p.1 != k)).find? (fun p => p.1 == k) = none := by
    rw [List.find?_eq_none]
    intro p hp
    have h2 := (List.mem_filter.mp hp).2
    simp only [bne_iff_ne, ne_eq] at h2
    simpa using h2
  rw [h]
  rfl

/-- `get` on a present, unexpired entry returns the payload and leaves the
cache untouched. -/
theorem MoodCache.get_fresh {A : Type} (c : MoodCache A) (now : Int) (k : String)
    (item : CacheItem A) (h : c.lookup k = some item) (hfresh : now ≤ item.expiry) :
    c.get now k = (some item.data, c) := by
  unfold MoodCache.get
  rw [h]
  simp [not_lt.mpr hfresh]

/-- `get` on a present but expired entry deletes it and returns absence. -/
theorem MoodCache.get_expired {A : Type} (c : MoodCache A) (now : Int) (k : String)
    (item : CacheItem A) (h : c.lookup k = some item) (hexp : item.expiry < now) :
    c.get now k = (none, c.delete k) := by
  unfold MoodCache.get
  rw [h]
  simp [hexp]

/-- `get` on an absent key returns absence and leaves the cache untouched. -/
theorem MoodCache.get_absent {A : Type} (c : MoodCache A) (now : Int) (k : String)
    (h : c.lookup k = none) : c.get now k = (none, c) := by
  unfold MoodCache.get
  rw [h]

/-! ## Theorems about the claims -/

/-- C1: for every input history and a fixed `now` (whose truncation to local
midnight is `today`), `processHistoryData` returns exactly 7 labels and 7
data points covering the days `today - 6` days through `today` in
chronological order; slot by slot, the data point is the value of the first
record in input order whose date truncated to midnight equals that calendar
day, and `none` when no record matches; an empty history yields 7 labels and
7 absent values. -/
theorem c1_processHistoryData_seven_day_series (fmt : Int → String) (now : Int)
    (history : List MoodRecord) :
    (processHistoryData fmt now history).labels =
      [fmt (truncDay now - 6 * dayMs), fmt (truncDay now - 5 * dayMs),
       fmt (truncDay now - 4 * dayMs), fmt (truncDay now - 3 * dayMs),
       fmt (truncDay now - 2 * dayMs), fmt (truncDay now - dayMs),
       fmt (truncDay now)] ∧
    (processHistoryData fmt now history).dataPoints =
      [(history.find? (fun h => truncDay h.date == truncDay now - 6 * dayMs)).map MoodRecord.value,
       (history.find? (fun h => truncDay h.date == truncDay now - 5 * dayMs)).map MoodRecord.value,
       (history.find? (fun h => truncDay h.date == truncDay now - 4 * dayMs)).map MoodRecord.value,
       (history.find? (fun h => truncDay h.date == truncDay now - 3 * dayMs)).map MoodRecord.value,
       (history.find? (fun h => truncDay h.date == truncDay now - 2 * dayMs)).map MoodRecord.value,
       (history.find? (fun h => truncDay h.date == truncDay now - dayMs)).map MoodRecord.value,
       (history.find? (fun h => truncDay h.date == truncDay now)).map MoodRecord.value] ∧
    (processHistoryData fmt now history).labels.length = 7 ∧
    (processHistoryData fmt now history).dataPoints.length = 7 ∧
    (processHistoryData fmt now []).labels.length = 7 ∧
    (processHistoryData fmt now []).dataPoints = List.replicate 7 none := by
  refine ⟨?_, ?_, ?_, ?_, ?_, ?_⟩ <;>
    simp [processHistoryData, historySlots, List.replicate]

/-- C3: `Cache.get(key)` returns the stored payload when an entry exists and
the current time is not past its expiry; when the TTL has elapsed it returns
absence and deletes the entry, so an immediately subsequent `get` (at any
later instant) also returns absence. -/
theorem c3_cache_get_expiry {A : Type} (c : MoodCache A) (k : String)
    (item : CacheItem A) (now now2 : Int) (h : c.lookup k = some item) :
    (now ≤ item.expiry → c.get now k = (some item.data, c)) ∧
    (item.expiry < now →
      (c.get now k).1 = none ∧
      (c.get now k).2.lookup k = none ∧
      ((c.get now k).2.get now2 k).1 = none) := by
  constructor
  · intro hfresh
    exact MoodCache.get_fresh c now k item h hfresh
  · intro hexp
    rw [MoodCache.get_expired c now k item h hexp]
    refine ⟨rfl, MoodCache.lookup_delete c k, ?_⟩
    rw [MoodCache.get_absent (c.delete k) now2 k (MoodCache.lookup_delete c k)]

/-- Witness for C3 on the concrete cache `cW`: a fresh read at time 50
returns the payload and keeps the entry; a read at time 200 (past the expiry
100) returns absence, and a subsequent read at time 300 also returns
absence. -/
theorem c3_witness :
    cW.get 50 "k" = (some 42, cW) ∧
    (cW.get 200 "k").1 = none ∧
    ((cW.get 200 "k").2.get 300 "k").1 = none := by
  have h1 := c3_cache_get_expiry cW "k" ⟨42, 100⟩ 50 300 rfl
  have h2 := c3_cache_get_expiry cW "k" ⟨42, 100⟩ 200 300 rfl
  exact ⟨h1.1 (by decide), (h2.2 (by decide)).1, (h2.2 (by decide)).2.2⟩

/-- C9: `fetchMoodHistory` with `forceRefresh = false` and a non-expired
cached series under `"mood_history"` renders that cached series and returns
it; the trace holds no HTTP request and the state (in particular the cache)
is unchanged. -/
theorem c9_fetchMoodHistory_cache_hit {α : Type} (env : Env α) (st : TrackerState)
    (item : CacheItem DaySeries)
    (h : st.cache.lookup "mood_history" = some item)
    (hfresh : env.now ≤ item.expiry) :
    fetchMoodHistory env st false =
      (.ok item.data, st, [.chart item.data.labels item.data.dataPoints]) := by
  unfold fetchMoodHistory
  rw [if_neg (by simp)]
  rw [MoodCache.get_fresh st.cache env.now "mood_history" item h hfresh]

/-- Witness for C9: on the concrete cached state `stCached` (expiry 2000000)
at time 1000000, `fetchMoodHistory` returns the cached series, renders it,
and leaves the state untouched. -/
theorem c9_witness :
    fetchMoodHistory envOkW stCached false =
      (.ok seriesW, stCached, [.chart seriesW.labels seriesW.dataPoints]) :=
  c9_fetchMoodHistory_cache_hit envOkW stCached ⟨seriesW, 2000000⟩ rfl (by decide)

/-- C6: `processHistoryData` is idempotent through its `rawHistory` field:
the output carries the input history untouched, so reprocessing it at the
same `now` reproduces the identical series. -/
theorem c6_processHistoryData_idempotent (fmt : Int → String) (now : Int)
    (history : List MoodRecord) :
    processHistoryData fmt now (processHistoryData fmt now history).rawHistory =
      processHistoryData fmt now history := rfl

/-- C4: for every mood absent from the label mapping, and for every value
whose integer parse is `NaN` or outside 1..5, `logMood` fails with the
validation error, with no effects at all — in particular zero HTTP
requests — and the state unchanged. -/
theorem c4_logMood_validation_before_network {α : Type} (env : Env α)
    (st : TrackerState) (mood : String) (value : Option Int)
    (h : MOOD_MAPPINGS mood = none ∨ value = none ∨
         ∃ v, value = some v ∧ (v < 1 ∨ 5 < v)) :
    logMood env st mood value = (.error invalidInputMessage, st, []) := by
  have hv : validateMoodInput mood value = false := by
    unfold validateMoodInput
    by_cases hm : mood = ""
    · simp [hm]
    · rw [if_neg hm]
      rcases h with h | h | ⟨v, rfl, hv⟩
      · cases value with
        | none => rfl
        | some v =>
          by_cases h5 : v < 1 ∨ 5 < v
          · simp [h5]
          · simp [h5, h]
      · rw [h]
      · simp [hv]
  simp [logMood, hv]

/-- Witness for C4: `logMood` with the unknown label "Nope" fails with the
validation error, leaves the state unchanged and emits no effects, even
though the environment would let a request succeed. -/
theorem c4_witness :
    logMood envOkW stIdle "Nope" (some 3) = (.error invalidInputMessage, stIdle, []) :=
  c4_logMood_validation_before_network envOkW stIdle "Nope" (some 3) (Or.inl rfl)

/-- C5 counterexample: the claim says a `logMood` call made while a previous
call is in flight fails with the guard error; but validation runs before the
in-flight guard, so a second call with invalid input fails with the
validation error instead, which is a different message. -/
theorem c5_counterexample :
    (logMood envOkW stBusy "Nope" (some 3)).1 = Except.error invalidInputMessage ∧
    invalidInputMessage ≠ guardMessage := by
  exact ⟨rfl, by decide⟩

/-- C5 (amended): while a submission is in flight, a second `logMood` call
whose input passes validation fails immediately with the guard error, and a
second call with invalid input fails immediately with the validation error;
in both cases no effect is emitted (hence no network request) and the state
— including the in-flight flag driving the first call — is unchanged. -/
theorem c5_guard_rejects_second_call {α : Type} (env : Env α) (st : TrackerState)
    (mood : String) (value : Option Int) (hb : st.isLoading = true) :
    (validateMoodInput mood value = true →
      logMood env st mood value = (.error guardMessage, st, [])) ∧
    (validateMoodInput mood value = false →
      logMood env st mood value = (.error invalidInputMessage, st, [])) := by
  constructor <;> intro hv <;> simp [logMood, hv, hb]

/-- Witness for C5 (amended): a valid second call made while `stBusy` is
submitting fails with the guard error, with no effects and no state
change. -/
theorem c5_witness :
    logMood envOkW stBusy "Happy" (some 5) = (.error guardMessage, stBusy, []) :=
  (c5_guard_rejects_second_call envOkW stBusy "Happy" (some 5) rfl).1 (by decide)

/-- C7 counterexample: the claim says every error surfaced by `logMood` —
validation included — first produces a user-facing notification and is then
rethrown; but the validation error is thrown before the try block, so it is
rethrown with an empty effect trace: no notification at all. -/
theorem c7_counterexample :
    (logMood envOkW stIdle "Nope" (some 3)).1 = Except.error invalidInputMessage ∧
    (logMood envOkW stIdle "Nope" (some 3)).2.2 = [] := by
  exact ⟨rfl, rfl⟩

/-- C7 (amended): errors raised inside `logMood`'s try block — a transport
failure of the submission, or a failure of the history refresh — first
produce a categorized notification (built by substring matching on the error
text) and are then rethrown; but validation and guard errors, thrown before
the try block, are rethrown with no notification at all. -/
theorem c7_notification_paths {α : Type} (env : Env α) (st : TrackerState)
    (mood : String) (value : Option Int) (e : String) :
    (validateMoodInput mood value = false →
      logMood env st mood value = (.error invalidInputMessage, st, [])) ∧
    (validateMoodInput mood value = true → st.isLoading = true →
      logMood env st mood value = (.error guardMessage, st, [])) ∧
    (validateMoodInput mood value = true → st.isLoading = false →
      env.postResult = .error e →
      logMood env st mood value =
        (.error e, { st with isLoading := false },
         [.loading true, .http MOOD_CONFIG.API_ENDPOINT,
          .notify (handleMoodLogErrorMessage e) "error", .loading false])) ∧
    (validateMoodInput mood value = true → st.isLoading = false →
      (∃ r, env.postResult = .ok r) → env.historyResult = .error e →
      (logMood env st mood value).1 = .error e ∧
      (logMood env st mood value).2.2 =
        [.loading true, .http MOOD_CONFIG.API_ENDPOINT,
         .updateUI mood value, .cacheClear,
         .http MOOD_CONFIG.HISTORY_ENDPOINT,
         .notify historyFailMessage "error", .chart [] [],
         .notify (handleMoodLogErrorMessage e) "error", .loading false]) := by
  refine ⟨fun hv => by simp [logMood, hv], fun hv hb => by simp [logMood, hv, hb],
          fun hv hb hp => by simp [logMood, hv, hb, hp], ?_⟩
  rintro hv hb ⟨r, hp⟩ hh
  simp [logMood, hv, hb, hp, fetchMoodHistory, MoodCache.get, MoodCache.lookup,
        MoodCache.clear, hh]

/-- Witness for C7 (amended): a concrete submission failing with message
"429" is first notified with the rate-limit category and then rethrown;
the categorized message is computed by the substring match. -/
theorem c7_witness :
    logMood envErrW stIdle "Happy" (some 5) =
      (.error "429", stIdle,
       [.loading true, .http MOOD_CONFIG.API_ENDPOINT,
        .notify (handleMoodLogErrorMessage "429") "error", .loading false]) ∧
    handleMoodLogErrorMessage "429" =
      "Failed to log mood. Too many requests. Please wait a moment." := by
  constructor
  · exact (c7_notification_paths envErrW stIdle "Happy" (some 5) "429").2.2.1
      (by decide) rfl rfl
  · decide

/-- C8: within every successful `logMood` call (valid input, idle tracker,
result `ok`), the effects happen in strict order: the HTTP submission, then
the optimistic UI update, then the cache clear, then the history refetch
(which, finding the cache just cleared, always issues the history request),
then the chart render and the success notification. -/
theorem c8_logMood_effect_order {α : Type} (env : Env α) (st : TrackerState)
    (mood : String) (value : Option Int)
    (hv : validateMoodInput mood value = true) (hb : st.isLoading = false)
    (hok : ∃ r, (logMood env st mood value).1 = Except.ok r) :
    ∃ r hist, env.postResult = .ok r ∧ env.historyResult = .ok hist ∧
      (logMood env st mood value).2.2 =
        [.loading true, .http MOOD_CONFIG.API_ENDPOINT,
         .updateUI mood value, .cacheClear,
         .http MOOD_CONFIG.HISTORY_ENDPOINT,
         .chart (processHistoryData env.fmt env.now hist).labels
                (processHistoryData env.fmt env.now hist).dataPoints,
         .notify (successMessage mood) "success", .loading false] := by
  obtain ⟨r0, hr0⟩ := hok
  cases hp : env.postResult with
  | error e =>
    rw [show (logMood env st mood value).1 = Except.error e by
          simp [logMood, hv, hb, hp]] at hr0
    exact absurd hr0 (by simp)
  | ok r =>
    cases hh : env.historyResult with
    | error e =>
      rw [show (logMood env st mood value).1 = Except.error e by
            simp [logMood, hv, hb, hp, fetchMoodHistory, MoodCache.get,
                  MoodCache.lookup, MoodCache.clear, hh]] at hr0
      exact absurd hr0 (by simp)
    | ok hist =>
      refine ⟨r, hist, rfl, rfl, ?_⟩
      simp [logMood, hv, hb, hp, fetchMoodHistory, MoodCache.get,
            MoodCache.lookup, MoodCache.clear, hh]

/-- Witness for C8: on the concrete environment `envOkW` and idle state, a
successful `logMood "Happy" 5` emits exactly the ordered trace: loading on,
POST submission, UI update, cache clear, history GET, chart render, success
notification, loading off. -/
theorem c8_witness :
    (logMood envOkW stIdle "Happy" (some 5)).2.2 =
      [.loading true, .http MOOD_CONFIG.API_ENDPOINT,
       .updateUI "Happy" (some 5), .cacheClear,
       .http MOOD_CONFIG.HISTORY_ENDPOINT,
       .chart (processHistoryData envOkW.fmt envOkW.now histW).labels
              (processHistoryData envOkW.fmt envOkW.now histW).dataPoints,
       .notify (successMessage "Happy") "success", .loading false] := by
  obtain ⟨r, hist, hp, hh, htr⟩ :=
    c8_logMood_effect_order envOkW stIdle "Happy" (some 5) (by decide) rfl ⟨(), rfl⟩
  rw [show envOkW.historyResult = Except.ok histW from rfl] at hh
  cases hh
  exact htr

/-- C10 (implicit): `validateMoodInput` does not require consistency between
the mood label and the numeric value: any mood present in the mapping
together with any parsed value in 1..5 validates, even when the value
differs from the mapping's value for that mood; in particular a call like
`logMood("Happy", 1)` (mapping value 5) passes validation and proceeds to
the submission request. -/
theorem c10_validate_no_consistency {α : Type} (env : Env α) (st : TrackerState)
    (mood : String) (v : Int) (attrs : MoodAttrs)
    (hm : MOOD_MAPPINGS mood = some attrs) (h1 : 1 ≤ v) (h5 : v ≤ 5) :
    validateMoodInput mood (some v) = true ∧
    MOOD_MAPPINGS "Happy" = some ⟨5, "😊", "#10B981"⟩ ∧
    validateMoodInput "Happy" (some 1) = true ∧
    (st.isLoading = false →
      (logMood env st "Happy" (some 1)).2.2.take 2 =
        [.loading true, .http MOOD_CONFIG.API_ENDPOINT]) := by
  have hne : mood ≠ "" := by
    intro hh
    rw [hh] at hm
    exact Option.noConfusion hm
  refine ⟨?_, rfl, by decide, ?_⟩
  · unfold validateMoodInput
    rw [if_neg hne]
    simp [show ¬(v < 1 ∨ 5 < v) by omega, hm]
  · intro hb
    have hv1 : validateMoodInput "Happy" (some 1) = true := by decide
    cases hp : env.postResult with
    | error e => simp [logMood, hb, hp, hv1]
    | ok r =>
      cases hh : env.historyResult with
      | error e =>
        simp [logMood, hb, hp, hv1, fetchMoodHistory, MoodCache.get,
              MoodCache.lookup, MoodCache.clear, hh]
      | ok hist =>
        simp [logMood, hb, hp, hv1, fetchMoodHistory, MoodCache.get,
              MoodCache.lookup, MoodCache.clear, hh]

/-- Witness for C10: "Good" maps to 4 yet validates with parsed value 2, and
the concrete call `logMood("Happy", 1)` on an idle tracker proceeds to the
POST submission. -/
theorem c10_witness :
    validateMoodInput "Good" (some 2) = true ∧
    (logMood envOkW stIdle "Happy" (some 1)).2.2.take 2 =
      [.loading true, .http MOOD_CONFIG.API_ENDPOINT] := by
  have h := c10_validate_no_consistency envOkW stIdle "Good" 2 ⟨4, "🙂", "#059669"⟩
    rfl (by decide) (by decide)
  exact ⟨h.1, h.2.2.2 rfl⟩

/-! ## General lemmas about the retry loop -/

/-- The retry loop makes at most as many calls as it has attempts left. -/
theorem retryAux_calls_le {E A : Type} (req : Nat → Except E A) (b : Nat) :
    ∀ (r i : Nat), (retryAux req b i r).2.1 ≤ r := by
  intro r
  induction r with
  | zero => intro i; simp [retryAux]
  | succ r ih =>
    intro i
    rcases r with _ | r
    · cases h : req i <;> simp [retryAux, h]
    · cases h : req i with
      | ok a => simp [retryAux, h]
      | error e =>
        have hrec := ih (i + 1)
        simp only [retryAux, h]
        omega

/-- When every remaining attempt fails, the loop makes all of them, sleeps
the linear backoff after each failure except the last, and ends with the
error of the final attempt. -/
theorem retryAux_all_fail {E A : Type} (req : Nat → Except E A) (b : Nat) :
    ∀ (r i : Nat), (∀ j, j ≤ r → ∃ e, req (i + j) = .error e) →
      ∃ e, req (i + r) = .error e ∧
        retryAux req b i (r + 1) =
          (some (.error e), r + 1, (List.range r).map (fun j => b * (i + j + 1))) := by
  intro r
  induction r with
  | zero =>
    intro i hall
    obtain ⟨e, he⟩ := hall 0 (Nat.le_refl 0)
    rw [Nat.add_zero] at he
    exact ⟨e, by rw [Nat.add_zero]; exact he, by simp [retryAux, he]⟩
  | succ r ih =>
    intro i hall
    obtain ⟨e0, he0⟩ := hall 0 (Nat.zero_le _)
    rw [Nat.add_zero] at he0
    obtain ⟨e, he, heq⟩ := ih (i + 1) (fun j hj => by
      obtain ⟨e', he'⟩ := hall (j + 1) (by omega)
      exact ⟨e', by rw [show i + 1 + j = i + (j + 1) by omega]; exact he'⟩)
    refine ⟨e, by rw [show i + (r + 1) = i + 1 + r by omega]; exact he, ?_⟩
    simp only [retryAux, he0, heq]
    refine Prod.ext rfl (Prod.ext rfl ?_)
    simp only [List.range_succ_eq_map, List.map_cons, List.map_map]
    refine congrArg₂ _ (by ring_nf) ?_
    exact List.map_congr_left (fun j _ => by dsimp only [Function.comp]; simp only [Nat.succ_eq_add_one]; ring)

/-- When the first `m` attempts fail and attempt `m` succeeds (with `m`
within budget), the loop returns that success after exactly `m + 1` calls,
sleeping the linear backoff after each failure. -/
theorem retryAux_first_success {E A : Type} (req : Nat → Except E A) (b : Nat) :
    ∀ (m i r : Nat) (a : A), m < r →
      (∀ j, j < m → ∃ e, req (i + j) = .error e) → req (i + m) = .ok a →
      retryAux req b i r =
        (some (.ok a), m + 1, (List.range m).map (fun j => b * (i + j + 1))) := by
  intro m
  induction m with
  | zero =>
    intro i r a hm _ hok
    rw [Nat.add_zero] at hok
    rcases r with _ | _ | r
    · omega
    · simp [retryAux, hok]
    · simp [retryAux, hok]
  | succ m ih =>
    intro i r a hm hfail hok
    rcases r with _ | _ | r
    · omega
    · omega
    · obtain ⟨e0, he0⟩ := hfail 0 (Nat.zero_le _ |>.lt_of_ne (by omega))
      rw [Nat.add_zero] at he0
      have hrec := ih (i + 1) (r + 1) a (by omega)
        (fun j hj => by
          obtain ⟨e', he'⟩ := hfail (j + 1) (by omega)
          exact ⟨e', by rw [show i + 1 + j = i + (j + 1) by omega]; exact he'⟩)
        (by rw [show i + 1 + m = i + (m + 1) by omega]; exact hok)
      simp only [retryAux, he0, hrec]
      refine Prod.ext rfl (Prod.ext rfl ?_)
      simp only [List.range_succ_eq_map, List.map_cons, List.map_map]
      refine congrArg₂ _ (by ring_nf) ?_
      exact List.map_congr_left (fun j _ => by dsimp only [Function.comp]; simp only [Nat.succ_eq_add_one]; ring)

/-- C2: `retryRequest` with `n ≥ 1` attempts calls `request` at most `n`
times; when every attempt fails — whatever the errors are — it makes exactly
`n` calls, sleeps `RETRY_DELAY * 1, RETRY_DELAY * 2, ...` after each failure
except the last, and propagates the final attempt's error unmodified; when
the first `m` attempts fail and attempt `m` (0-based) succeeds, it returns
that success after exactly `m + 1` calls with the same escalating delays. -/
theorem c2_retryRequest_behavior {E A : Type} (req : Nat → Except E A) (n : Nat)
    (hn : 1 ≤ n) :
    (retryRequest req n).2.1 ≤ n ∧
    ((∀ j, j < n → ∃ e, req j = .error e) →
      ∃ e, req (n - 1) = .error e ∧
        retryRequest req n =
          (some (.error e), n,
           (List.range (n - 1)).map (fun j => MOOD_CONFIG.RETRY_DELAY * (j + 1)))) ∧
    (∀ m a, m < n → (∀ j, j < m → ∃ e, req j = .error e) → req m = .ok a →
      retryRequest req n =
        (some (.ok a), m + 1,
         (List.range m).map (fun j => MOOD_CONFIG.RETRY_DELAY * (j + 1)))) := by
  refine ⟨retryAux_calls_le req MOOD_CONFIG.RETRY_DELAY n 0, ?_, ?_⟩
  · intro hall
    obtain ⟨r, rfl⟩ : ∃ r, n = r + 1 := ⟨n - 1, by omega⟩
    obtain ⟨e, he, heq⟩ := retryAux_all_fail req MOOD_CONFIG.RETRY_DELAY r 0
      (fun j hj => by simpa using hall j (by omega))
    refine ⟨e, by simpa using he, ?_⟩
    rw [show r + 1 - 1 = r by omega]
    unfold retryRequest
    rw [heq]
    refine Prod.ext rfl (Prod.ext rfl (List.map_congr_left (fun j _ => by ring_nf)))
  · intro m a hm hfail hok
    have heq := retryAux_first_success req MOOD_CONFIG.RETRY_DELAY m 0 n a hm
      (fun j hj => by simpa using hfail j hj) (by simpa using hok)
    unfold retryRequest
    rw [heq]
    refine Prod.ext rfl (Prod.ext rfl (List.map_congr_left (fun j _ => by ring_nf)))

/-- Witness for C2 on `c2req` (fails on attempts 0 and 1, succeeds on
attempt 2) with a budget of 3: the success result is returned, exactly 3
calls are made, and the delays escalate 1000ms then 2000ms. -/
theorem c2_witness :
    retryRequest c2req 3 = (some (.ok 42), 3, [1000, 2000]) ∧
    (retryRequest c2req 3).2.1 ≤ 3 := by
  have h := c2_retryRequest_behavior c2req 3 (by decide)
  refine ⟨?_, h.1⟩
  have hs := h.2.2 2 42 (by decide)
    (fun j hj => by
      interval_cases j
      · exact ⟨"fail 0", rfl⟩
      · exact ⟨"fail 1", rfl⟩)
    rfl
  rw [hs]
  rfl

end MindWell
